import Mathlib

/-!
# Verification of the AI-Resume-Analyzer scoring core

Shallow embedding of the scoring and similarity engine of the
AI-Resume-Analyzer repository:

* `src/scoring/similarity.py`  (`SimilarityCalculator`)
* `src/scoring/ats_score.py`   (`ATSScoreCalculator`)
* `src/npl/skill_extractor.py` (`SkillExtractor`)

Python strings are modelled as `String` / `List Char` (ASCII assumptions are
noted where Python `str` methods are Unicode-aware), Python floats as `ℚ`
wherever the source only adds, subtracts, multiplies and divides, and as `ℝ`
where `math.sqrt` enters (cosine similarity).  Functions that the source makes
crash (fall off the end, `KeyError`) are embedded with `Except` or noted in
doc comments.
-/

set_option maxHeartbeats 1000000

namespace ResumeAnalyzer

/-! ## Python string primitives (ASCII model) -/

/-- Python `str.isspace` / regex `\s` for the ASCII range:
space, tab, newline, carriage return, vertical tab, form feed. -/
def pyIsSpace (c : Char) : Bool :=
  c = ' ' || c = '\t' || c = '\n' || c = '\r' || c = '\x0b' || c = '\x0c'

/-- Python `str.lower`, restricted to ASCII (`Char.toLower` maps `A`-`Z`). -/
def pyLower (cs : List Char) : List Char := cs.map Char.toLower

/-- Helper for `pySplit`: accumulates the current word (reversed). -/
def pySplitAux (cur : List Char) : List Char → List (List Char)
  | [] => if cur.isEmpty then [] else [cur.reverse]
  | c :: cs =>
    if pyIsSpace c then
      if cur.isEmpty then pySplitAux [] cs else cur.reverse :: pySplitAux [] cs
    else pySplitAux (c :: cur) cs

/-- Python `str.split()` with no argument: split on runs of whitespace and
drop empty pieces. -/
def pySplit (cs : List Char) : List (List Char) := pySplitAux [] cs

/-- Python `needle in haystack` on `str`: substring containment. -/
def containsSub (hay pat : List Char) : Bool :=
  (List.range (hay.length + 1)).any fun i =>
    decide ((hay.drop i).take pat.length = pat)

/-- Regex `\w`: word character (ASCII model of `[A-Za-z0-9_]`). -/
def isWordChar (c : Char) : Bool := c.isAlphanum || c = '_'

/-- Whether position `i` of `cs` holds a word character (out of range: no). -/
def isWordAt (cs : List Char) (i : ℕ) : Bool :=
  ((cs.get? i).map isWordChar).getD false

/-- Regex `\b` at position `p` (the gap before index `p`): word-ness differs
on the two sides; the outside of the string counts as non-word. -/
def boundaryAt (cs : List Char) (p : ℕ) : Bool :=
  (if p = 0 then false else isWordAt cs (p - 1)) != isWordAt cs p

/-- Value of a run of decimal digits, as Python `int()` reads it. -/
def digitsToNat (ds : List Char) : ℕ :=
  ds.foldl (fun acc c => 10 * acc + (c.toNat - '0'.toNat)) 0

/-! ## SimilarityCalculator (src/scoring/similarity.py) -/

namespace SimilarityCalculator

/-- `SimilarityCalculator.STOP_WORDS` (a Python set literal; `'the'` appears
twice in the source and the set keeps one copy). -/
def STOP_WORDS : List String :=
  ["a", "an", "and", "are", "as", "at", "be", "by", "for", "from",
   "has", "he", "in", "is", "it", "its", "of", "on", "that", "the",
   "to", "was", "will", "with", "this", "but", "they", "have",
   "had", "what", "when", "where", "who", "which", "why", "how"]

/-- `preprocess_text`: lowercase, replace every character outside
`[a-z0-9\s]` by a space, split on whitespace, drop stop words and words of
length ≤ 2. -/
def preprocess_text (text : String) : List String :=
  let lowered := pyLower text.data
  let cleaned := lowered.map fun c =>
    if ('a' ≤ c && c ≤ 'z') || ('0' ≤ c && c ≤ '9') || pyIsSpace c then c else ' '
  ((pySplit cleaned).map fun w => String.mk w).filter fun t =>
    !STOP_WORDS.contains t && t.length > 2

/-- Normalized term frequency of `t` in token list `l`
(`count / total`; `0` for the empty list, matching the empty `Counter`). -/
def tf (l : List String) (t : String) : ℚ := (l.count t : ℚ) / (l.length : ℚ)

/-- Sum of squared vector entries, `sum(val ** 2 for val in vec.values())`:
the keys of the `Counter` are the distinct tokens. -/
def sumSquares (l : List String) : ℚ :=
  Finset.sum l.toFinset fun t => (tf l t) ^ 2

/-- Dot product over the union of the two key sets,
`sum(vec1.get(term, 0) * vec2.get(term, 0) for term in all_terms)`. -/
def dotProduct (l1 l2 : List String) : ℚ :=
  Finset.sum (l1.toFinset ∪ l2.toFinset) fun t => tf l1 t * tf l2 t

/-- `cosine_similarity` on the two normalized term-frequency vectors.  The
source returns `0.0` when `mag1 == 0 or mag2 == 0` with
`mag = sqrt(sum of squares)`; since `sqrt x = 0 ↔ x = 0` for `x ≥ 0`, the
guard is embedded as `sumSquares _ = 0`. -/
noncomputable def cosine_similarity (l1 l2 : List String) : ℝ :=
  if sumSquares l1 = 0 ∨ sumSquares l2 = 0 then 0
  else (dotProduct l1 l2 : ℝ) /
    (Real.sqrt (sumSquares l1) * Real.sqrt (sumSquares l2))

/-- `jaccard_similarity`: `|s1 ∩ s2| / |s1 ∪ s2|`, `0.0` for empty union. -/
def jaccard_similarity (s1 s2 : Finset String) : ℚ :=
  if 0 < (s1 ∪ s2).card then ((s1 ∩ s2).card : ℚ) / ((s1 ∪ s2).card : ℚ)
  else 0

/-- Result dictionary of `calculate_text_similarity`. -/
structure SimilarityResult where
  cosine_similarity : ℝ
  jaccard_similarity : ℝ
  overlap_score : ℝ
  overall_similarity : ℝ

/-- `calculate_text_similarity`: tokenize both texts, build normalized
frequency vectors, blend cosine, Jaccard and job-term overlap. -/
noncomputable def calculate_text_similarity (text1 text2 : String) :
    SimilarityResult :=
  let tokens1 := preprocess_text text1
  let tokens2 := preprocess_text text2
  let cosine_sim := cosine_similarity tokens1 tokens2
  let jaccard_sim : ℚ := jaccard_similarity tokens1.toFinset tokens2.toFinset
  let job_terms := tokens2.toFinset
  let resume_terms := tokens1.toFinset
  let overlap : ℚ :=
    if job_terms.Nonempty then
      ((job_terms ∩ resume_terms).card : ℚ) / (job_terms.card : ℚ)
    else 0
  { cosine_similarity := cosine_sim
    jaccard_similarity := (jaccard_sim : ℝ)
    overlap_score := (overlap : ℝ)
    overall_similarity :=
      cosine_sim * 0.4 + (jaccard_sim : ℝ) * 0.3 + (overlap : ℝ) * 0.3 }

/-- Result dictionary of `calculate_skill_match`.  The source materializes
the Python sets `matched/missing/extra` as lists in unspecified hash order;
here each list is fixed to first-appearance order of the underlying input
list (the spec warns not to rely on the order beyond set equality). -/
structure SkillMatchResult where
  match_percentage : ℚ
  matched_skills : List String
  missing_skills : List String
  extra_skills : List String
  matched_count : ℕ
  required_count : ℕ
deriving DecidableEq

/-- Lowercased, deduplicated skill names: `{skill.lower() for skill in l}`. -/
def lowerSet (l : List String) : List String :=
  (l.map fun s => String.mk (pyLower s.data)).dedup

/-- `calculate_skill_match`: set intersection / difference on lowercased
skill names; `match_percentage = |matched| / |job set| * 100` (0 when the
job-skill set is empty). -/
def calculate_skill_match (resume_skills job_skills : List String) :
    SkillMatchResult :=
  let resume_skills_set := lowerSet resume_skills
  let job_skills_set := lowerSet job_skills
  let matched_skills := job_skills_set.filter fun s => resume_skills_set.contains s
  let missing_skills := job_skills_set.filter fun s => !resume_skills_set.contains s
  let extra_skills := resume_skills_set.filter fun s => !job_skills_set.contains s
  let match_percentage : ℚ :=
    if job_skills_set.isEmpty then 0
    else (matched_skills.length : ℚ) / (job_skills_set.length : ℚ) * 100
  { match_percentage := match_percentage
    matched_skills := matched_skills
    missing_skills := missing_skills
    extra_skills := extra_skills
    matched_count := matched_skills.length
    required_count := job_skills_set.length }

/-- Try regex `(\d+)\+?\s*years?\s+(?:of\s+)?experience` at the head of `cs`;
on success return the captured number and the rest after the match.  The
greedy quantifiers are deterministic here (digits, `+`, whitespace and the
literals draw from disjoint character sets), except the optional
`(?:of\s+)?`, which is tried first and fallen back from, as the regex
engine's backtracking does. -/
def matchExpPattern1 (cs : List Char) : Option (ℕ × List Char) :=
  let ds := cs.takeWhile Char.isDigit
  if ds.isEmpty then none else
  let r1 := cs.drop ds.length
  let r2 := match r1 with
            | '+' :: t => t
            | _ => r1
  let r3 := r2.dropWhile pyIsSpace
  match r3 with
  | 'y' :: 'e' :: 'a' :: 'r' :: r4 =>
    let r5 := match r4 with
              | 's' :: t => t
              | _ => r4
    let ws := r5.takeWhile pyIsSpace
    if ws.isEmpty then none else
    let r6 := r5.drop ws.length
    let tryOf : Option (List Char) :=
      match r6 with
      | 'o' :: 'f' :: r7 =>
        let ws2 := r7.takeWhile pyIsSpace
        if ws2.isEmpty then none else
        match r7.drop ws2.length with
        | 'e' :: 'x' :: 'p' :: 'e' :: 'r' :: 'i' :: 'e' :: 'n' :: 'c' :: 'e' :: r8 => some r8
        | _ => none
      | _ => none
    match tryOf with
    | some r8 => some (digitsToNat ds, r8)
    | none =>
      match r6 with
      | 'e' :: 'x' :: 'p' :: 'e' :: 'r' :: 'i' :: 'e' :: 'n' :: 'c' :: 'e' :: r8 =>
        some (digitsToNat ds, r8)
      | _ => none
  | _ => none

/-- Try regex `experience\s+(?:of\s+)?(\d+)\+?\s*years?` at the head of `cs`;
same conventions as `matchExpPattern1`. -/
def matchExpPattern2 (cs : List Char) : Option (ℕ × List Char) :=
  match cs with
  | 'e' :: 'x' :: 'p' :: 'e' :: 'r' :: 'i' :: 'e' :: 'n' :: 'c' :: 'e' :: r1 =>
    let ws := r1.takeWhile pyIsSpace
    if ws.isEmpty then none else
    let r2 := r1.drop ws.length
    let finish : List Char → Option (ℕ × List Char) := fun r =>
      let ds := r.takeWhile Char.isDigit
      if ds.isEmpty then none else
      let r3 := r.drop ds.length
      let r4 := match r3 with
                | '+' :: t => t
                | _ => r3
      let r5 := r4.dropWhile pyIsSpace
      match r5 with
      | 'y' :: 'e' :: 'a' :: 'r' :: r6 =>
        let r7 := match r6 with
                  | 's' :: t => t
                  | _ => r6
        some (digitsToNat ds, r7)
      | _ => none
    let tryOf : Option (ℕ × List Char) :=
      match r2 with
      | 'o' :: 'f' :: rOf =>
        let ws2 := rOf.takeWhile pyIsSpace
        if ws2.isEmpty then none else finish (rOf.drop ws2.length)
      | _ => none
    match tryOf with
    | some res => some res
    | none => finish r2
  | _ => none

/-- Fuel-driven scan implementing `re.finditer`: at each position try the
pattern; on a match record the captured group and resume after the matched
span (both patterns above consume at least one character), else advance one
character.  `fuel = length + 1` suffices. -/
def findIterAux (step : List Char → Option (ℕ × List Char)) :
    ℕ → List Char → List ℕ
  | 0, _ => []
  | fuel + 1, cs =>
    match step cs with
    | some (v, rest) => v :: findIterAux step fuel rest
    | none =>
      match cs with
      | [] => []
      | _ :: t => findIterAux step fuel t

/-- `re.finditer(pattern, cs)`, collecting the captured numbers. -/
def findIter (step : List Char → Option (ℕ × List Char)) (cs : List Char) :
    List ℕ :=
  findIterAux step (cs.length + 1) cs

/-- Result dictionary of `calculate_experience_match`. -/
structure ExperienceMatch where
  candidate_years : ℕ
  required_years : Option ℤ
  meets_requirement : Bool
  experience_level : String
deriving DecidableEq

/-- `calculate_experience_match`: collect the year counts matched by the two
experience regexes over the lowercased resume text; `candidate_years` is
their maximum (0 when none).  `if required_years:` is Python truthiness:
`None` and `0` both leave `meets_requirement` False. -/
def calculate_experience_match (resume_text : String)
    (required_years : Option ℤ) : ExperienceMatch :=
  let lowered := pyLower resume_text.data
  let years_found := findIter matchExpPattern1 lowered ++
                     findIter matchExpPattern2 lowered
  let candidate_years := years_found.foldl max 0
  let meets := match required_years with
               | some y => if y = 0 then false else decide ((candidate_years : ℤ) ≥ y)
               | none => false
  let level := if candidate_years ≥ 10 then "Senior/Expert"
               else if candidate_years ≥ 5 then "Senior"
               else if candidate_years ≥ 2 then "Mid-Level"
               else if candidate_years ≥ 1 then "Junior"
               else "Entry Level"
  { candidate_years := candidate_years
    required_years := required_years
    meets_requirement := meets
    experience_level := level }

/-- Render of `Option ℤ` inside a Python f-string (`None` for `None`). -/
def optIntStr : Option ℤ → String
  | some y => toString y
  | none => "None"

/-- `_generate_recommendations`: independent rule firings in source order,
with the fallback only when no other rule fired. -/
noncomputable def generate_recommendations
    (skill_match : SkillMatchResult) (experience_match : ExperienceMatch)
    (overall_score : ℝ) : List String :=
  let r1 : List String :=
    if skill_match.match_percentage < 70 then
      ["Focus on developing these skills: " ++
        ", ".intercalate (skill_match.missing_skills.take 5)]
    else []
  let r2 : List String :=
    if skill_match.match_percentage < 50 then
      ["Consider additional training or certifications in required areas."]
    else []
  let r3 : List String :=
    if experience_match.meets_requirement then []
    else ["Gain more experience. Target: " ++
          optIntStr experience_match.required_years ++ " years"]
  let r4 : List String :=
    if overall_score < 60 then
      ["This position may not be the best fit. Consider roles matching your skills."]
    else if overall_score < 80 then
      ["Highlight relevant projects and experiences in your application."]
    else []
  let recommendations := r1 ++ r2 ++ r3 ++ r4
  if recommendations.isEmpty then
    ["You\x27re a strong match for this position!"]
  else recommendations

/-- Result dictionary of `calculate_job_match_score`. -/
structure JobMatchResult where
  overall_score : ℝ
  match_level : String
  text_similarity : SimilarityResult
  skill_match : SkillMatchResult
  experience_match : ExperienceMatch
  recommendations : List String

/-- `calculate_job_match_score`: weighted blend
(similarity 0.25, skill match 0.50, experience 0.25) and match-level bands. -/
noncomputable def calculate_job_match_score (resume_text job_description : String)
    (resume_skills job_skills : List String) (required_years : Option ℤ) :
    JobMatchResult :=
  let text_similarity := calculate_text_similarity resume_text job_description
  let skill_match := calculate_skill_match resume_skills job_skills
  let experience_match := calculate_experience_match resume_text required_years
  let overall_score : ℝ :=
    text_similarity.overall_similarity * 0.25 * 100 +
    (skill_match.match_percentage : ℝ) * 0.50 +
    (if experience_match.meets_requirement then 100 else 50) * 0.25
  let match_level := if overall_score ≥ 80 then "Excellent Match"
                     else if overall_score ≥ 70 then "Good Match"
                     else if overall_score ≥ 60 then "Fair Match"
                     else "Poor Match"
  { overall_score := overall_score
    match_level := match_level
    text_similarity := text_similarity
    skill_match := skill_match
    experience_match := experience_match
    recommendations :=
      generate_recommendations skill_match experience_match overall_score }

/-- A candidate dictionary handed to `rank_candidates`: `resume_text` and
`skills` are what the caller supplies; the three `match_*` fields model the
keys that `rank_candidates` writes into the dictionary (absent on entry). -/
structure Candidate where
  resume_text : String
  skills : List String
  match_score : Option ℝ := none
  match_level : Option String := none
  match_details : Option JobMatchResult := none

/-- The in-place update one loop iteration of `rank_candidates` performs on a
candidate dictionary: three key assignments from the match result, computed
with the candidate's own skills and no `required_years` argument. -/
noncomputable def scoreCandidate (job_description : String)
    (job_skills : List String) (c : Candidate) : Candidate :=
  let match_result :=
    calculate_job_match_score c.resume_text job_description c.skills job_skills none
  { c with match_score := some match_result.overall_score
           match_level := some match_result.match_level
           match_details := some match_result }

/-- The state of the caller's candidate dictionaries after the scoring loop
of `rank_candidates` (the loop mutates each input dictionary in place; this
list is in input order, before the sort). -/
noncomputable def scoredCandidates (candidates : List Candidate)
    (job_description : String) (job_skills : List String) : List Candidate :=
  candidates.map (scoreCandidate job_description job_skills)

/-- Sort key read back from the dictionary (`x['match_score']`; set for every
scored candidate). -/
noncomputable def candidateScore (c : Candidate) : ℝ := c.match_score.getD 0

/-- `rank_candidates`: score every candidate, then
`sort(key=match_score, reverse=True)` — a stable descending sort, embedded
as `mergeSort` with `le a b ↔ score b ≤ score a`. -/
noncomputable def rank_candidates (candidates : List Candidate)
    (job_description : String) (job_skills : List String) : List Candidate :=
  (scoredCandidates candidates job_description job_skills).mergeSort
    fun a b => decide (candidateScore b ≤ candidateScore a)

end SimilarityCalculator

/-! ## SkillExtractor (src/npl/skill_extractor.py) -/

namespace SkillExtractor

/-- Metadata stored in `skills_data` for one catalog key:
`{'category': ..., 'weight': ..., 'original': ...}`. -/
structure SkillMeta where
  category : String
  weight : ℚ
  original : String
deriving DecidableEq

/-- `self.skills_data`: the catalog, keyed by lowercased skill name, in
insertion order. -/
abbrev SkillDB := List (String × SkillMeta)

/-- One entry of the list `extract_skills` builds:
`{'skill': original, 'category': ..., 'weight': ..., 'matched': True}`. -/
structure ExtractedSkill where
  skill : String
  category : String
  weight : ℚ
  matched : Bool
deriving DecidableEq

/-- Whole-word occurrence of the literal `pat` at position `i` of `cs`, as
matched by `re.search(r'\b' + re.escape(pat) + r'\b', cs)`: the characters
at `[i, i + |pat|)` equal `pat` and `\b` holds at both ends. -/
def matchWholeWordAt (pat cs : List Char) (i : ℕ) : Bool :=
  decide ((cs.drop i).take pat.length = pat) &&
    boundaryAt cs i && boundaryAt cs (i + pat.length)

/-- `re.search(r'\b' + re.escape(pat) + r'\b', cs)` as a Boolean: some
position carries a whole-word occurrence. -/
def wordBoundarySearch (pat cs : List Char) : Bool :=
  (List.range (cs.length + 1)).any fun i => matchWholeWordAt pat cs i

/-- The list `found_skills` that the loop of `extract_skills` builds: one
record per catalog entry whose key occurs word-boundary-delimited in the
lowercased text, in catalog order.  NOTE the source function
(src/npl/skill_extractor.py lines 56-81) falls off the end without a
`return` statement, so the Python function returns `None`; its docstring
("Returns: List of found skills with metadata") and its own test
(`test_skill_extractor`, which iterates the result) show the evidently
intended `return found_skills`, which is what this definition models. -/
def extract_skills (skills_data : SkillDB) (text : String) :
    List ExtractedSkill :=
  let text_lower := pyLower text.data
  skills_data.filterMap fun p =>
    if wordBoundarySearch p.1.data text_lower then
      some { skill := p.2.original, category := p.2.category,
             weight := p.2.weight, matched := true }
    else none

/-- Lowercase a skill name (`skill.lower()`). -/
def lowerName (s : String) : String := String.mk (pyLower s.data)

/-- `{skill['skill'].lower() for skill in found_skills}`. -/
def foundNameSet (found_skills : List ExtractedSkill) : Finset String :=
  (found_skills.map fun r => lowerName r.skill).toFinset

/-- `{skill.lower() for skill in required_skills}`. -/
def requiredNameSet (required_skills : List String) : Finset String :=
  (required_skills.map lowerName).toFinset

/-- `calculate_skill_coverage`: returns
`(coverage, matched, missing)` with `coverage = |matched|/|required| * 100`
(`0` when `required_skill_names` is empty).  The source materializes the two
sets as lists in unspecified hash order; they are kept as `Finset`s here. -/
def calculate_skill_coverage (found_skills : List ExtractedSkill)
    (required_skills : List String) : ℚ × Finset String × Finset String :=
  let found_skill_names := foundNameSet found_skills
  let required_skill_names := requiredNameSet required_skills
  let matched := found_skill_names ∩ required_skill_names
  let missing := required_skill_names \ found_skill_names
  let coverage : ℚ :=
    if required_skill_names.Nonempty then
      (matched.card : ℚ) / (required_skill_names.card : ℚ) * 100
    else 0
  (coverage, matched, missing)

end SkillExtractor

/-! ## ATSScoreCalculator (src/scoring/ats_score.py) -/

namespace ATSScoreCalculator

open SkillExtractor (ExtractedSkill)

/-- Character class of the local part of the email regex
`[A-Za-z0-9._%+-]`. -/
def emailLocalChar (c : Char) : Bool :=
  c.isAlpha || c.isDigit || c = '.' || c = '_' || c = '%' || c = '+' || c = '-'

/-- Character class `[A-Za-z0-9.-]` of the email domain. -/
def emailDomChar (c : Char) : Bool :=
  c.isAlpha || c.isDigit || c = '.' || c = '-'

/-- Character class `[A-Z|a-z]` of the email TLD (the source's class
literally includes `|`). -/
def emailTldChar (c : Char) : Bool := c.isAlpha || c = '|'

/-- Test that positions `[i, i+k)` of `cs` exist and all satisfy `p`. -/
def runAt (p : Char → Bool) (cs : List Char) (i k : ℕ) : Bool :=
  ((cs.drop i).take k).length = k && ((cs.drop i).take k).all p

/-- `re.search(r'\b[A-Za-z0-9._%+-]+@[A-Za-z0-9.-]+\.[A-Z|a-z]{2,}\b', text)`
as a Boolean: a search succeeds exactly when some decomposition matches, so
the existential over the segment endpoints is the exact semantics. -/
def hasEmail (cs : List Char) : Bool :=
  let n := cs.length
  (List.range (n + 1)).any fun a =>
    (List.range (n + 1)).any fun b =>
      (List.range (n + 1)).any fun d =>
        (List.range (n + 1)).any fun e =>
          a < b && b + 1 < d && d + 3 ≤ e && e ≤ n &&
          boundaryAt cs a && boundaryAt cs e &&
          runAt emailLocalChar cs a (b - a) &&
          cs.get? b = some '@' &&
          runAt emailDomChar cs (b + 1) (d - (b + 1)) &&
          cs.get? d = some '.' &&
          runAt emailTldChar cs (d + 1) (e - (d + 1))

/-- Separator class `[-.\s]` of the phone regex. -/
def phoneSep (c : Char) : Bool := c = '-' || c = '.' || pyIsSpace c

/-- Optional separator of length `s ∈ {0, 1}` at position `i`. -/
def sepOptAt (cs : List Char) (i s : ℕ) : Bool :=
  s = 0 || ((cs.get? i).map phoneSep).getD false

/-- `re.search(r'\d{3}[-.\s]?\d{3}[-.\s]?\d{4}', text)` as a Boolean
(existential over start position and the two optional separators). -/
def hasPhone (cs : List Char) : Bool :=
  (List.range (cs.length + 1)).any fun i =>
    [0, 1].any fun s1 => [0, 1].any fun s2 =>
      runAt Char.isDigit cs i 3 && sepOptAt cs (i + 3) s1 &&
      runAt Char.isDigit cs (i + 3 + s1) 3 && sepOptAt cs (i + 6 + s1) s2 &&
      runAt Char.isDigit cs (i + 6 + s1 + s2) 4

/-- Class `[-–]` (hyphen or en dash) of the date regexes. -/
def dashChar (c : Char) : Bool := c = '-' || c = '–'

/-- Regex `\d{4}\s*[-–]\s*\d{4}` at the head of `s` (greedy quantifiers are
deterministic: digits, whitespace and the dash draw from disjoint sets). -/
def date1At (s : List Char) : Bool :=
  runAt Char.isDigit s 0 4 &&
  match (s.drop 4).dropWhile pyIsSpace with
  | c :: rest => dashChar c && runAt Char.isDigit (rest.dropWhile pyIsSpace) 0 4
  | [] => false

/-- Regex `\d{4}\s*[-–]\s*present` (with `re.IGNORECASE`) at the head of the
already-lowercased `s`. -/
def date2At (s : List Char) : Bool :=
  runAt Char.isDigit s 0 4 &&
  match (s.drop 4).dropWhile pyIsSpace with
  | c :: rest =>
    dashChar c &&
    "present".data.isPrefixOf (rest.dropWhile pyIsSpace)
  | [] => false

/-- Regex `\w+\s+\d{4}` at the head of `s`, returning the rest after the four
digits (`none` on failure); greedy `\w+`/`\s+` are deterministic against the
following tokens. -/
def wordYearAt (s : List Char) : Option (List Char) :=
  let w := s.takeWhile isWordChar
  if w.isEmpty then none else
  let r1 := (s.drop w.length)
  let ws := r1.takeWhile pyIsSpace
  if ws.isEmpty then none else
  let r2 := r1.drop ws.length
  if runAt Char.isDigit r2 0 4 then some (r2.drop 4) else none

/-- Regex `\w+\s+\d{4}\s*[-–]\s*\w+\s+\d{4}` at the head of `s`. -/
def date3At (s : List Char) : Bool :=
  match wordYearAt s with
  | none => false
  | some r =>
    match r.dropWhile pyIsSpace with
    | c :: rest => dashChar c && (wordYearAt (rest.dropWhile pyIsSpace)).isSome
    | [] => false

/-- `any(re.search(p, text, re.IGNORECASE) for p in date_patterns)`: the
three date shapes, searched at every position of the lowercased text
(IGNORECASE only affects the literal `present`; lowercasing first is
equivalent for existence). -/
def hasDates (cs : List Char) : Bool :=
  let lowered := pyLower cs
  lowered.tails.any fun s => date1At s || date2At s || date3At s

/-- `re.search(r'\d+%|\$\d+|\d+\+', text)` as a Boolean: each alternative is
witnessed by a digit adjacent to the marker character. -/
def hasQuantifiable (cs : List Char) : Bool :=
  cs.tails.any fun s =>
    match s with
    | a :: b :: _ =>
      (a.isDigit && (b = '%' || b = '+')) || (a = '$' && b.isDigit)
    | _ => false

/-- `re.search(r'\b(19|20)\d{2}\b', text)` as a Boolean. -/
def hasYear (cs : List Char) : Bool :=
  (List.range (cs.length + 1)).any fun i =>
    boundaryAt cs i && boundaryAt cs (i + 4) &&
    ((cs.get? i = some '1' && cs.get? (i + 1) = some '9') ||
     (cs.get? i = some '2' && cs.get? (i + 1) = some '0')) &&
    ((cs.get? (i + 2)).map Char.isDigit).getD false &&
    ((cs.get? (i + 3)).map Char.isDigit).getD false

/-- `_score_formatting`: start at 100 and subtract for each failed check;
clamped below at 0 on return. -/
def score_formatting (text : String) : ℚ × List String :=
  let cs := text.data
  let lowered := pyLower cs
  let word_count := (pySplit cs).length
  let s1 : ℚ := if word_count < 300 then 100 - 20
                else if word_count > 3000 then 100 - 15 else 100
  let r1 : List String :=
    if word_count < 300 then
      ["Resume is too short. Add more details about your experience."]
    else if word_count > 3000 then
      ["Resume is too long. Keep it concise (1-2 pages ideal)."]
    else []
  let problematic := ['•', '★', '◆', '▪', '►'].any fun c => cs.contains c
  let s2 := if problematic then s1 - 10 else s1
  let r2 : List String :=
    if problematic then
      ["Replace special bullet characters with standard hyphens or asterisks."]
    else []
  let tables := cs.contains '\t' || cs.contains '|'
  let s3 := if tables then s2 - 10 else s2
  let r3 : List String :=
    if tables then ["Avoid using tables. Use simple text formatting instead."]
    else []
  let has_email := hasEmail cs
  let has_phone := hasPhone cs
  let s4 := if has_email then s3 else s3 - 15
  let r4 : List String :=
    if has_email then [] else ["Add a professional email address."]
  let s5 := if has_phone then s4 else s4 - 10
  let r5 : List String :=
    if has_phone then [] else ["Include a phone number."]
  let headers_found :=
    (["experience", "education", "skills", "summary"].filter fun h =>
      containsSub lowered h.data).length
  let s6 := if headers_found < 3 then s5 - 15 else s5
  let r6 : List String :=
    if headers_found < 3 then
      ["Use clear section headers (Experience, Education, Skills, etc.)."]
    else []
  (max 0 s6, r1 ++ r2 ++ r3 ++ r4 ++ r5 ++ r6)

/-- `matches / len(keywords) * 100 if keywords else 0` of `_score_keywords`
(a match is a case-insensitive substring occurrence of the keyword in the
text). -/
def keywordMatchPercentage (text : String) (keywords : List String) : ℚ :=
  if keywords.isEmpty then 0
  else ((keywords.filter fun k =>
    containsSub (pyLower text.data) (pyLower k.data)).length : ℚ) /
    (keywords.length : ℚ) * 100

/-- `_score_keywords`: match percentage (case-insensitive substring test per
keyword), minus 10 when keyword density exceeds 5%; the returned score is
NOT clamped below.  Returns `(score, matches, recommendations)`. -/
def score_keywords (text : String) (keywords : List String) :
    ℚ × ℕ × List String :=
  let text_lower := pyLower text.data
  let numMatches :=
    (keywords.filter fun k => containsSub text_lower (pyLower k.data)).length
  let missing_keywords :=
    keywords.filter fun k => !containsSub text_lower (pyLower k.data)
  let match_percentage : ℚ := keywordMatchPercentage text keywords
  let recs1 : List String :=
    if match_percentage < 70 then
      ["Include these important keywords: " ++
        ", ".intercalate (missing_keywords.take 5)]
    else []
  let total_words := (pySplit text.data).length
  let keyword_density : ℚ :=
    if total_words > 0 then (numMatches : ℚ) / (total_words : ℚ) * 100 else 0
  let score :=
    if keyword_density > 5 then match_percentage - 10 else match_percentage
  let recs2 : List String :=
    if keyword_density > 5 then
      ["Keyword density is too high. Use keywords naturally."]
    else []
  (score, numMatches, recs1 ++ recs2)

/-- The fixed action-verb list of `_score_experience`. -/
def actionVerbs : List String :=
  ["developed", "created", "managed", "led", "implemented",
   "designed", "built", "improved", "achieved", "established"]

/-- `_score_experience`: start at 100; −50 and early return when no
experience keyword is present; then −20 without date ranges, −15 with fewer
than 5 action verbs, −15 without quantifiable achievements; clamped below at
0.  The `sections` argument is accepted and unused, as in the source. -/
def score_experience (text : String)
    (sections : Option (List (String × String))) : ℚ × List String :=
  let _ := sections
  let cs := text.data
  let text_lower := pyLower cs
  let has_experience := ["experience", "employment", "work history"].any
    fun k => containsSub text_lower k.data
  if !has_experience then
    (max 0 (100 - 50 : ℚ),
     ["Add a Work Experience or Employment History section."])
  else
    let has_dates := hasDates cs
    let s1 : ℚ := if has_dates then 100 else 100 - 20
    let r1 : List String :=
      if has_dates then [] else ["Include dates (start and end) for each position."]
    let action_verb_count :=
      (actionVerbs.filter fun v => containsSub text_lower v.data).length
    let s2 := if action_verb_count < 5 then s1 - 15 else s1
    let r2 : List String :=
      if action_verb_count < 5 then
        ["Use strong action verbs (e.g., developed, managed, implemented)."]
      else []
    let has_numbers := hasQuantifiable cs
    let s3 := if has_numbers then s2 else s2 - 15
    let r3 : List String :=
      if has_numbers then []
      else ["Add quantifiable achievements (e.g., \x27Increased sales by 30%\x27)."]
    (max 0 s3, r1 ++ r2 ++ r3)

/-- Degree keyword list of `_score_education`. -/
def degreeKeywords : List String :=
  ["bachelor", "master", "phd", "doctorate", "b.s.", "m.s.",
   "b.a.", "m.a.", "mba", "degree"]

/-- `_score_education`: start at 100; −40 and early return without the
`education` keyword; then −30 without a degree keyword, −20 without a
4-digit year 19xx/20xx, and a GPA recommendation with no penalty; clamped
below at 0. -/
def score_education (text : String)
    (sections : Option (List (String × String))) : ℚ × List String :=
  let _ := sections
  let cs := text.data
  let text_lower := pyLower cs
  let has_education := containsSub text_lower "education".data
  if !has_education then
    (max 0 (100 - 40 : ℚ), ["Add an Education section with your degrees."])
  else
    let has_degree := degreeKeywords.any fun k => containsSub text_lower k.data
    let s1 : ℚ := if has_degree then 100 else 100 - 30
    let r1 : List String :=
      if has_degree then [] else ["Specify your degree (e.g., Bachelor of Science)."]
    let has_year := hasYear cs
    let s2 := if has_year then s1 else s1 - 20
    let r2 : List String :=
      if has_year then []
      else ["Include graduation year or expected graduation date."]
    let has_gpa := containsSub text_lower "gpa".data ||
                   containsSub text_lower "grade point average".data
    let r3 : List String :=
      if has_gpa then []
      else ["Consider adding GPA if it\x27s 3.5 or higher (optional)."]
    (max 0 s2, r1 ++ r2 ++ r3)

/-- Modelled from the spec: the source's `_score_skills`
(src/scoring/ats_score.py lines 323-334) is truncated — it binds
`score = 100.0`, `recommendations = []` and `skill_count` and then cuts off
before the thresholding logic, so the Python function returns `None` and
every `calculate_score` call crashes unpacking it.  Per the spec (§4.3, §9)
we supply an explicit monotone mapping from skill count to [0,100]: a linear
ramp of 10 points per extracted skill saturating at 100, with no
recommendations — a documented approximation, not the original constants. -/
def score_skills (extracted_skills : List ExtractedSkill) : ℚ × List String :=
  let skill_count := extracted_skills.length
  (min ((skill_count : ℚ) * 10) 100, [])

/-- Scoring weights `WEIGHTS` (formatting .15, keywords .30, experience .20,
education .15, skills .20). -/
def wFormatting : ℚ := 0.15
def wKeywords : ℚ := 0.30
def wExperience : ℚ := 0.20
def wEducation : ℚ := 0.15
def wSkills : ℚ := 0.20

/-- `ATSScoreResult` dataclass.  `section_scores` is the `scores` dict in
insertion order. -/
structure ATSScoreResult where
  overall_score : ℚ
  section_scores : List (String × ℚ)
  recommendations : List String
  strengths : List String
  weaknesses : List String
  keyword_matches : ℕ
  keyword_total : ℕ
deriving DecidableEq

/-- Python truthiness of the `required_keywords` argument:
`None` and the empty list are both falsy. -/
def keywordsTruthy : Option (List String) → Bool
  | some (_ :: _) => true
  | _ => false

/-- The components assembled by `calculate_score`, in `scores` insertion
order, as `(dict key, title-cased name, score)`; the `keywords` entry exists
only when `required_keywords` is truthy. -/
def scoreComponents (resume_text : String)
    (extracted_skills : List ExtractedSkill)
    (required_keywords : Option (List String))
    (sections : Option (List (String × String))) : List (String × String × ℚ) :=
  [("formatting", "Formatting", (score_formatting resume_text).1)] ++
  (match required_keywords with
   | some (k :: ks) => [("keywords", "Keywords",
       (score_keywords resume_text (k :: ks)).1)]
   | _ => []) ++
  [("experience", "Experience", (score_experience resume_text sections).1),
   ("education", "Education", (score_education resume_text sections).1),
   ("skills", "Skills", (score_skills extracted_skills).1)]

/-- Faithful embedding of `calculate_score` (src/scoring/ats_score.py lines
52-128), with `_score_skills` supplied per `score_skills` above.  The
weighted sum iterates over ALL keys of `WEIGHTS`, but when
`required_keywords` is falsy the `scores` dict has no `'keywords'` entry
(the `else` branch only binds the local `keyword_score = 0.0`), so the
source raises `KeyError: 'keywords'`; that path is embedded as `.error`. -/
def calculate_score (resume_text : String)
    (extracted_skills : List ExtractedSkill)
    (required_keywords : Option (List String))
    (sections : Option (List (String × String))) :
    Except String ATSScoreResult :=
  match required_keywords with
  | some (k :: ks) =>
    let fm := score_formatting resume_text
    let kw := score_keywords resume_text (k :: ks)
    let ex := score_experience resume_text sections
    let ed := score_education resume_text sections
    let sk := score_skills extracted_skills
    let comps := scoreComponents resume_text extracted_skills
      (some (k :: ks)) sections
    let overall_score :=
      fm.1 * wFormatting + kw.1 * wKeywords + ex.1 * wExperience +
      ed.1 * wEducation + sk.1 * wSkills
    Except.ok
      { overall_score := overall_score
        section_scores := comps.map fun c => (c.1, c.2.2)
        recommendations := fm.2 ++ kw.2.2 ++ ex.2 ++ ed.2 ++ sk.2
        strengths := comps.filterMap fun c =>
          if c.2.2 ≥ 80 then some (c.2.1 ++ ": Excellent") else none
        weaknesses := comps.filterMap fun c =>
          if c.2.2 < 60 then some (c.2.1 ++ ": Needs improvement") else none
        keyword_matches := kw.2.1
        keyword_total := (k :: ks).length }
  | _ => Except.error "KeyError: \x27keywords\x27"

/-- Modelled from the spec: `calculate_score` as §4.3 describes it — when
keyword scoring is skipped the keywords weight "contributes 0" to the
weighted sum and `keyword_matches`/`keyword_total` are 0 (the caller can
tell no requirements were given by `keyword_total == 0`).  The source
instead raises `KeyError` on that path (see `calculate_score`); on the
truthy path the two definitions agree. -/
def calculate_score_spec (resume_text : String)
    (extracted_skills : List ExtractedSkill)
    (required_keywords : Option (List String))
    (sections : Option (List (String × String))) : ATSScoreResult :=
  let fm := score_formatting resume_text
  let ex := score_experience resume_text sections
  let ed := score_education resume_text sections
  let sk := score_skills extracted_skills
  let kw : Option (ℚ × ℕ × List String) :=
    match required_keywords with
    | some (k :: ks) => some (score_keywords resume_text (k :: ks))
    | _ => none
  let comps := scoreComponents resume_text extracted_skills required_keywords
    sections
  let overall_score :=
    fm.1 * wFormatting +
    (match kw with | some kwv => kwv.1 * wKeywords | none => 0) +
    ex.1 * wExperience + ed.1 * wEducation + sk.1 * wSkills
  { overall_score := overall_score
    section_scores := comps.map fun c => (c.1, c.2.2)
    recommendations :=
      fm.2 ++ (match kw with | some kwv => kwv.2.2 | none => []) ++
      ex.2 ++ ed.2 ++ sk.2
    strengths := comps.filterMap fun c =>
      if c.2.2 ≥ 80 then some (c.2.1 ++ ": Excellent") else none
    weaknesses := comps.filterMap fun c =>
      if c.2.2 < 60 then some (c.2.1 ++ ": Needs improvement") else none
    keyword_matches := match kw with | some kwv => kwv.2.1 | none => 0
    keyword_total := match required_keywords with
                     | some ks => if ks.isEmpty then 0 else ks.length
                     | none => 0 }

end ATSScoreCalculator

/-! ## Theorems for the claims -/

open SimilarityCalculator SkillExtractor ATSScoreCalculator

/-- Claim C3 (code_bug; modelled intended return): every record in the list
built by `extract_skills` comes from a catalog entry whose key occurs in the
lowercased text as a whole-word (word-boundary-delimited) match, and carries
that entry's metadata.  (The claim is about the *returned* list; the source
function falls off the end and returns `None`, see `extract_skills`.) -/
theorem claim_C3_extract_skills_sound (skills_data : SkillDB) (text : String)
    (r : ExtractedSkill) (hr : r ∈ extract_skills skills_data text) :
    ∃ key meta, (key, meta) ∈ skills_data ∧
      r = ⟨meta.original, meta.category, meta.weight, true⟩ ∧
      wordBoundarySearch key.data (pyLower text.data) = true := by
  simp only [extract_skills, List.mem_filterMap] at hr
  obtain ⟨⟨key, meta⟩, hmem, heq⟩ := hr
  by_cases h : wordBoundarySearch key.data (pyLower text.data)
  · rw [if_pos h] at heq
    exact ⟨key, meta, hmem, (Option.some.inj heq).symm, h⟩
  · rw [if_neg h] at heq
    exact absurd heq (by simp)

/-- Witness for claim C3: the catalog `{python}` against the text
`"I know Python"`; the single extracted record satisfies the property. -/
theorem claim_C3_witness :
    ∃ key meta,
      (key, meta) ∈
        ([("python", ⟨"Programming Languages", 1, "Python"⟩)] : SkillDB) ∧
      (⟨"Python", "Programming Languages", 1, true⟩ : ExtractedSkill) =
        ⟨meta.original, meta.category, meta.weight, true⟩ ∧
      wordBoundarySearch key.data (pyLower ("I know Python" : String).data) =
        true :=
  claim_C3_extract_skills_sound
    [("python", ⟨"Programming Languages", 1, "Python"⟩)] "I know Python"
    ⟨"Python", "Programming Languages", 1, true⟩
    (by
      rw [show extract_skills
            [("python", ⟨"Programming Languages", 1, "Python"⟩)]
            "I know Python" =
          [⟨"Python", "Programming Languages", 1, true⟩] from by decide]
      exact List.mem_singleton_self _)

/-- Counterexample for claim C4 at `found = []`, `required = []`: the matched
set equals the (lowercased) required set — both are empty — yet the coverage
is 0, not 100, so "coverage = 100 iff matched = required set" fails as
stated. -/
theorem claim_C4_counterexample :
    (calculate_skill_coverage [] []).1 = 0 ∧
    (calculate_skill_coverage [] []).2.1 = requiredNameSet [] ∧
    ¬ (calculate_skill_coverage [] []).1 = 100 := by
  refine ⟨rfl, rfl, ?_⟩
  intro h
  rw [show (calculate_skill_coverage [] []).1 = 0 from rfl] at h
  norm_num at h

/-- The lowercased required list is nonempty exactly when the list is. -/
theorem requiredNameSet_nonempty {required : List String} (h : required ≠ []) :
    (requiredNameSet required).Nonempty := by
  obtain ⟨a, t, rfl⟩ := List.exists_cons_of_ne_nil h
  exact ⟨lowerName a, List.mem_toFinset.mpr (List.mem_map_of_mem _ (List.mem_cons_self a t))⟩

/-- Growing the found-skill list grows its lowercased name set. -/
theorem foundNameSet_mono {found found' : List ExtractedSkill}
    (h : found ⊆ found') : foundNameSet found ⊆ foundNameSet found' := by
  intro x hx
  rw [foundNameSet, List.mem_toFinset] at hx ⊢
  obtain ⟨r, hr, rfl⟩ := List.mem_map.mp hx
  exact List.mem_map_of_mem _ (h hr)

/-- Claim C4 as amended: for a fixed `required` list, the coverage percentage
of `calculate_skill_coverage` is monotone in the found-skills list; when
`required` is nonempty, coverage = 100 iff the matched set equals the
lowercased required set; coverage = 0 when `required` is empty or when the
lowercased required names are disjoint from the found names. -/
theorem claim_C4_coverage_properties (found found' : List ExtractedSkill)
    (required : List String) :
    (found ⊆ found' →
      (calculate_skill_coverage found required).1 ≤
        (calculate_skill_coverage found' required).1) ∧
    (required ≠ [] →
      ((calculate_skill_coverage found required).1 = 100 ↔
        (calculate_skill_coverage found required).2.1 = requiredNameSet required)) ∧
    (required = [] → (calculate_skill_coverage found required).1 = 0) ∧
    (foundNameSet found ∩ requiredNameSet required = ∅ →
      (calculate_skill_coverage found required).1 = 0) := by
  refine ⟨?_, ?_, ?_, ?_⟩
  · intro hsub
    unfold calculate_skill_coverage
    dsimp only
    by_cases hne : (requiredNameSet required).Nonempty
    · rw [if_pos hne, if_pos hne]
      have hcard : ((foundNameSet found ∩ requiredNameSet required).card : ℚ) ≤
          ((foundNameSet found' ∩ requiredNameSet required).card : ℚ) := by
        exact_mod_cast Finset.card_le_card
          (Finset.inter_subset_inter_right (foundNameSet_mono hsub))
      have hpos : (0 : ℚ) < ((requiredNameSet required).card : ℚ) := by
        exact_mod_cast Finset.card_pos.mpr hne
      gcongr
    · rw [if_neg hne, if_neg hne]
  · intro hne
    have hne' := requiredNameSet_nonempty hne
    unfold calculate_skill_coverage
    dsimp only
    rw [if_pos hne']
    have hpos : (0 : ℚ) < ((requiredNameSet required).card : ℚ) := by
      exact_mod_cast Finset.card_pos.mpr hne'
    have hsub : foundNameSet found ∩ requiredNameSet required ⊆
        requiredNameSet required := Finset.inter_subset_right
    constructor
    · intro h
      have hdiv : ((foundNameSet found ∩ requiredNameSet required).card : ℚ) =
          ((requiredNameSet required).card : ℚ) := by
        field_simp at h
        linarith
      have hcard : (foundNameSet found ∩ requiredNameSet required).card =
          (requiredNameSet required).card := by exact_mod_cast hdiv
      exact Finset.eq_of_subset_of_card_le hsub (le_of_eq hcard.symm)
    · intro h
      rw [h]
      field_simp
  · rintro rfl
    rfl
  · intro hdisj
    unfold calculate_skill_coverage
    dsimp only
    rw [hdisj]
    by_cases hne : (requiredNameSet required).Nonempty
    · rw [if_pos hne]
      simp
    · rw [if_neg hne]

/-- The sum of squared term frequencies is positive for a nonempty token
list. -/
theorem sumSquares_pos {l : List String} (h : l ≠ []) : 0 < sumSquares l := by
  obtain ⟨t, ts, rfl⟩ := List.exists_cons_of_ne_nil h
  apply Finset.sum_pos'
  · intro i _
    positivity
  · refine ⟨t, List.mem_toFinset.mpr (List.mem_cons_self t ts), ?_⟩
    have hcount : 0 < ((t :: ts).count t : ℚ) := by
      exact_mod_cast List.count_pos_iff.mpr (List.mem_cons_self t ts)
    have hlen : 0 < (((t :: ts) : List String).length : ℚ) := by
      exact_mod_cast List.length_pos.mpr (List.cons_ne_nil t ts)
    have : 0 < tf (t :: ts) t := div_pos hcount hlen
    positivity

/-- On identical token lists the dot product collapses to the sum of
squares. -/
theorem dotProduct_self (l : List String) : dotProduct l l = sumSquares l := by
  unfold dotProduct sumSquares
  rw [Finset.union_self]
  exact Finset.sum_congr rfl fun t _ => (sq (tf l t)).symm

/-- Cosine similarity of a nonempty token list with itself is exactly 1. -/
theorem cosine_similarity_self {l : List String} (h : l ≠ []) :
    cosine_similarity l l = 1 := by
  have hS := sumSquares_pos h
  unfold cosine_similarity
  rw [if_neg (by simp [hS.ne'])]
  rw [dotProduct_self]
  have hS0 : (0 : ℝ) ≤ (sumSquares l : ℝ) := by exact_mod_cast hS.le
  rw [Real.mul_self_sqrt hS0]
  exact div_self (by exact_mod_cast hS.ne')

/-- Jaccard similarity of a nonempty finite set with itself is exactly 1. -/
theorem jaccard_similarity_self {s : Finset String} (h : s.Nonempty) :
    jaccard_similarity s s = 1 := by
  unfold jaccard_similarity
  rw [Finset.union_self, Finset.inter_self, if_pos (Finset.card_pos.mpr h)]
  exact div_self (by exact_mod_cast (Finset.card_pos.mpr h).ne')

/-- Counterexample for claim C5: for the empty text (whose token list is
empty after preprocessing) `calculate_text_similarity` returns cosine
similarity 0 and Jaccard similarity 0 — the zero-magnitude and empty-union
guards fire — so it does not return 1 and 1 as the claim states for every
text. -/
theorem claim_C5_counterexample :
    (calculate_text_similarity "" "").cosine_similarity = 0 ∧
    (calculate_text_similarity "" "").jaccard_similarity = 0 ∧
    ¬ ((calculate_text_similarity "" "").cosine_similarity = 1 ∧
       (calculate_text_similarity "" "").jaccard_similarity = 1) := by
  have h0 : (calculate_text_similarity "" "").cosine_similarity = 0 := rfl
  have h1 : (calculate_text_similarity "" "").jaccard_similarity =
      ((0 : ℚ) : ℝ) := rfl
  refine ⟨h0, by rw [h1, Rat.cast_zero], ?_⟩
  intro hc
  rw [h0] at hc
  norm_num at hc

/-- Claim C5 as amended: for every text whose preprocessed token list is
nonempty, `calculate_text_similarity` of the text with itself returns
cosine similarity 1 and Jaccard similarity 1 (exactly, in real
arithmetic). -/
theorem claim_C5_identical_text_similarity (t : String)
    (h : preprocess_text t ≠ []) :
    (calculate_text_similarity t t).cosine_similarity = 1 ∧
    (calculate_text_similarity t t).jaccard_similarity = 1 := by
  constructor
  · show cosine_similarity (preprocess_text t) (preprocess_text t) = 1
    exact cosine_similarity_self h
  · show ((jaccard_similarity (preprocess_text t).toFinset
      (preprocess_text t).toFinset : ℚ) : ℝ) = 1
    rw [jaccard_similarity_self]
    · exact Rat.cast_one
    · obtain ⟨a, ts, hts⟩ := List.exists_cons_of_ne_nil h
      exact ⟨a, List.mem_toFinset.mpr (hts ▸ List.mem_cons_self a ts)⟩

/-- Witness for claim C5 at the text `"hello"` (one token after
preprocessing). -/
theorem claim_C5_witness :
    (calculate_text_similarity "hello" "hello").cosine_similarity = 1 ∧
    (calculate_text_similarity "hello" "hello").jaccard_similarity = 1 :=
  claim_C5_identical_text_similarity "hello" (by decide)

/-- Counterexample for claim C6 at `required_years = 0` and the empty resume:
the candidate has 0 years, `0 ≥ 0` holds, yet `meets_requirement` is False —
`if required_years:` treats the given value 0 like "not given". -/
theorem claim_C6_counterexample :
    ¬ (((calculate_experience_match "" (some 0)).meets_requirement = true) ↔
       ((calculate_experience_match "" (some 0)).candidate_years : ℤ) ≥ 0) := by
  decide

/-- Claim C6 as amended: `meets_requirement` is
`candidate_years ≥ required_years` when `required_years` is given and
nonzero, and False when it is absent or 0. -/
theorem claim_C6_meets_requirement (text : String) (ry : Option ℤ) :
    ((ry = none ∨ ry = some 0) →
      (calculate_experience_match text ry).meets_requirement = false) ∧
    (∀ y : ℤ, ry = some y → y ≠ 0 →
      (calculate_experience_match text ry).meets_requirement =
        decide (((calculate_experience_match text ry).candidate_years : ℤ) ≥ y)) := by
  constructor
  · rintro (rfl | rfl) <;> simp [calculate_experience_match]
  · rintro y rfl hy
    simp [calculate_experience_match, hy]

/-- Claim C2: `calculate_job_match_score` returns
`overall_score = overall_similarity·100·0.25 + match_percentage·0.50 +
(100 if meets_requirement else 50)·0.25`, and `match_level` follows the
80/70/60 bands. -/
theorem claim_C2_job_match_formula (rt jd : String) (rs js : List String)
    (ry : Option ℤ) :
    (calculate_job_match_score rt jd rs js ry).overall_score =
      (calculate_text_similarity rt jd).overall_similarity * 100 * 0.25 +
      ((calculate_skill_match rs js).match_percentage : ℝ) * 0.50 +
      (if (calculate_experience_match rt ry).meets_requirement
        then (100 : ℝ) else 50) * 0.25 ∧
    (calculate_job_match_score rt jd rs js ry).match_level =
      (if (calculate_job_match_score rt jd rs js ry).overall_score ≥ 80
        then "Excellent Match"
       else if (calculate_job_match_score rt jd rs js ry).overall_score ≥ 70
        then "Good Match"
       else if (calculate_job_match_score rt jd rs js ry).overall_score ≥ 60
        then "Fair Match"
       else "Poor Match") := by
  constructor
  · have h : (calculate_job_match_score rt jd rs js ry).overall_score =
        (calculate_text_similarity rt jd).overall_similarity * 0.25 * 100 +
        ((calculate_skill_match rs js).match_percentage : ℝ) * 0.50 +
        (if (calculate_experience_match rt ry).meets_requirement
          then (100 : ℝ) else 50) * 0.25 := rfl
    rw [h]
    ring
  · rfl

/-- Counterexample for claim C9: `rank_candidates` is not input-preserving —
after the scoring loop the caller's candidate dictionary has been mutated
(its `match_score` key is now set), so the inputs are not unchanged. -/
theorem claim_C9_counterexample :
    scoredCandidates [{ resume_text := "", skills := [] }] "" [] ≠
      [{ resume_text := "", skills := [] }] := by
  intro h
  have h1 : (scoredCandidates [{ resume_text := "", skills := [] }] "" []).map
      (fun c => c.match_score.isSome) = [true] := rfl
  rw [h] at h1
  simp at h1

/-- Claim C9 as amended: every scoring component is a deterministic function
of its inputs, and all of them except `rank_candidates` leave their inputs
untouched; `rank_candidates` mutates each input candidate dictionary by
setting exactly the keys `match_score`, `match_level` and `match_details`
(from the job-match result computed with that candidate's own text and
skills), leaving `resume_text` and `skills` unchanged. -/
theorem claim_C9_rank_mutation (cs : List Candidate) (jd : String)
    (js : List String) :
    scoredCandidates cs jd js = cs.map fun c =>
      { resume_text := c.resume_text
        skills := c.skills
        match_score :=
          some ((calculate_job_match_score c.resume_text jd c.skills js none).overall_score)
        match_level :=
          some ((calculate_job_match_score c.resume_text jd c.skills js none).match_level)
        match_details :=
          some (calculate_job_match_score c.resume_text jd c.skills js none) } :=
  rfl

/-- Claim C10: `rank_candidates` scores with no `required_years`, so every
ranked candidate has `meets_requirement = False` and a match score of
`overall_similarity·100·0.25 + match_percentage·0.50 + 12.5` — the ranking
depends only on text similarity and skill match. -/
theorem claim_C10_rank_ignores_experience (cs : List Candidate) (jd : String)
    (js : List String) :
    List.Forall (fun c =>
      (∃ r, c.match_details = some r ∧
        r.experience_match.meets_requirement = false) ∧
      c.match_score = some (
        (calculate_text_similarity c.resume_text jd).overall_similarity * 100 * 0.25 +
        ((calculate_skill_match c.skills js).match_percentage : ℝ) * 0.50 + 12.5))
      (rank_candidates cs jd js) := by
  rw [List.forall_iff_forall_mem]
  intro c hc
  rw [rank_candidates, List.mem_mergeSort, scoredCandidates, List.mem_map] at hc
  obtain ⟨orig, -, rfl⟩ := hc
  constructor
  · exact ⟨_, rfl, rfl⟩
  · have hrt : (scoreCandidate jd js orig).resume_text = orig.resume_text := rfl
    have hsk : (scoreCandidate jd js orig).skills = orig.skills := rfl
    rw [hrt, hsk]
    show some _ = some _
    congr 1
    have hm : (calculate_experience_match orig.resume_text none).meets_requirement
        = false := rfl
    have h : (calculate_job_match_score orig.resume_text jd orig.skills js none).overall_score =
        (calculate_text_similarity orig.resume_text jd).overall_similarity * 0.25 * 100 +
        ((calculate_skill_match orig.skills js).match_percentage : ℝ) * 0.50 +
        (if (calculate_experience_match orig.resume_text none).meets_requirement
          then (100 : ℝ) else 50) * 0.25 := rfl
    rw [h, hm, if_neg (by simp)]
    ring

/-- Claim C7: the output of `rank_candidates` is sorted in descending order
of `match_score`, and the sort is stable: two candidates with equal score
keep the relative order they have in the scored (input-order) list. -/
theorem claim_C7_rank_candidates_sorted_stable (cs : List Candidate)
    (jd : String) (js : List String) :
    (rank_candidates cs jd js).Pairwise
      (fun a b => candidateScore b ≤ candidateScore a) ∧
    (∀ a b : Candidate, candidateScore a = candidateScore b →
      [a, b].Sublist (scoredCandidates cs jd js) →
      [a, b].Sublist (rank_candidates cs jd js)) := by
  have trans : ∀ x y z : Candidate,
      decide (candidateScore y ≤ candidateScore x) →
      decide (candidateScore z ≤ candidateScore y) →
      decide (candidateScore z ≤ candidateScore x) := by
    intro x y z h1 h2
    exact decide_eq_true
      (le_trans (of_decide_eq_true h2) (of_decide_eq_true h1))
  have total : ∀ x y : Candidate,
      decide (candidateScore y ≤ candidateScore x) ||
      decide (candidateScore x ≤ candidateScore y) := by
    intro x y
    rcases le_total (candidateScore y) (candidateScore x) with h | h <;>
      simp [h]
  constructor
  · have h := @List.sorted_mergeSort Candidate
      (fun a b : Candidate => decide (candidateScore b ≤ candidateScore a))
      trans total (scoredCandidates cs jd js)
    rw [rank_candidates]
    exact h.imp fun hab => of_decide_eq_true hab
  · intro a b hab hsub
    rw [rank_candidates]
    exact List.pair_sublist_mergeSort trans total
      (decide_eq_true (le_of_eq hab.symm)) hsub

/-- The formatting sub-score lies in [20, 100]: the deductions total at most
80 (the short/long deductions are mutually exclusive). -/
theorem score_formatting_bounds (text : String) :
    20 ≤ (score_formatting text).1 ∧ (score_formatting text).1 ≤ 100 := by
  unfold score_formatting
  dsimp only
  split_ifs <;> constructor <;> norm_num

/-- The keyword match percentage lies in [0, 100]. -/
theorem keywordMatchPercentage_bounds (text : String) (keywords : List String) :
    0 ≤ keywordMatchPercentage text keywords ∧
    keywordMatchPercentage text keywords ≤ 100 := by
  unfold keywordMatchPercentage
  split_ifs with he
  · norm_num
  · have hlen : 0 < (keywords.length : ℚ) := by
      have := List.isEmpty_iff.not.mp he
      exact_mod_cast List.length_pos.mpr (by simpa using this)
    constructor
    · positivity
    · have hle : ((keywords.filter fun k =>
          containsSub (pyLower text.data) (pyLower k.data)).length : ℚ) ≤
          (keywords.length : ℚ) := by
        exact_mod_cast List.length_filter_le _ _
      rw [div_mul_eq_mul_div, div_le_iff₀ hlen]
      linarith

/-- The keyword sub-score lies in [-10, 100]; in particular it is never below
-10 (the match percentage is in [0, 100] and at most 10 is deducted). -/
theorem score_keywords_bounds (text : String) (keywords : List String) :
    -10 ≤ (score_keywords text keywords).1 ∧
    (score_keywords text keywords).1 ≤ 100 := by
  have hmp := keywordMatchPercentage_bounds text keywords
  unfold score_keywords
  dsimp only
  split_ifs <;> constructor <;> linarith [hmp.1, hmp.2]

/-- The experience sub-score lies in [0, 100]. -/
theorem score_experience_bounds (text : String)
    (sections : Option (List (String × String))) :
    0 ≤ (score_experience text sections).1 ∧
    (score_experience text sections).1 ≤ 100 := by
  unfold score_experience
  dsimp only
  split_ifs <;> constructor <;> norm_num

/-- The education sub-score lies in [0, 100]. -/
theorem score_education_bounds (text : String)
    (sections : Option (List (String × String))) :
    0 ≤ (score_education text sections).1 ∧
    (score_education text sections).1 ≤ 100 := by
  unfold score_education
  dsimp only
  split_ifs <;> constructor <;> norm_num

/-- The (spec-modelled) skills sub-score lies in [0, 100]. -/
theorem score_skills_bounds (skills : List ExtractedSkill) :
    0 ≤ (score_skills skills).1 ∧ (score_skills skills).1 ≤ 100 := by
  unfold score_skills
  dsimp only
  constructor
  · have : (0 : ℚ) ≤ (skills.length : ℚ) * 10 := by positivity
    exact le_min this (by norm_num)
  · exact min_le_right _ _

/-- Claim C1 (code_bug): the overall ATS score of the spec-intended
`calculate_score_spec` lies in [0, 100] for every input — and the source's
`calculate_score` does not even return a result when no required keywords
are supplied (it raises `KeyError: 'keywords'`), shown here at the concrete
input `("x", [], None, None)`. -/
theorem claim_C1_overall_score_bounds :
    (∀ (text : String) (skills : List ExtractedSkill)
      (rk : Option (List String)) (sections : Option (List (String × String))),
      0 ≤ (calculate_score_spec text skills rk sections).overall_score ∧
      (calculate_score_spec text skills rk sections).overall_score ≤ 100) ∧
    calculate_score "x" [] none none =
      Except.error "KeyError: \x27keywords\x27" := by
  constructor
  · intro text skills rk sections
    have hf := score_formatting_bounds text
    have he := score_experience_bounds text sections
    have hd := score_education_bounds text sections
    have hs := score_skills_bounds skills
    match rk with
    | none =>
      have hoverall : (calculate_score_spec text skills none sections).overall_score =
          (score_formatting text).1 * wFormatting + 0 +
          (score_experience text sections).1 * wExperience +
          (score_education text sections).1 * wEducation +
          (score_skills skills).1 * wSkills := rfl
      rw [hoverall]
      unfold wFormatting wExperience wEducation wSkills
      constructor <;> linarith [hf.1, hf.2, he.1, he.2, hd.1, hd.2, hs.1, hs.2]
    | some [] =>
      have hoverall : (calculate_score_spec text skills (some []) sections).overall_score =
          (score_formatting text).1 * wFormatting + 0 +
          (score_experience text sections).1 * wExperience +
          (score_education text sections).1 * wEducation +
          (score_skills skills).1 * wSkills := rfl
      rw [hoverall]
      unfold wFormatting wExperience wEducation wSkills
      constructor <;> linarith [hf.1, hf.2, he.1, he.2, hd.1, hd.2, hs.1, hs.2]
    | some (k :: ks) =>
      have hk := score_keywords_bounds text (k :: ks)
      have hoverall : (calculate_score_spec text skills (some (k :: ks)) sections).overall_score =
          (score_formatting text).1 * wFormatting +
          (score_keywords text (k :: ks)).1 * wKeywords +
          (score_experience text sections).1 * wExperience +
          (score_education text sections).1 * wEducation +
          (score_skills skills).1 * wSkills := rfl
      rw [hoverall]
      unfold wFormatting wKeywords wExperience wEducation wSkills
      constructor <;>
        linarith [hf.1, hf.2, he.1, he.2, hd.1, hd.2, hs.1, hs.2, hk.1, hk.2]
  · rfl

/-- Claim C8 (code_bug): for the spec-intended `calculate_score_spec`,
`keyword_matches ≤ keyword_total` always, and `keyword_total = 0` exactly
when the required-keyword argument is falsy (absent or the empty list) — and
the source's `calculate_score` does not even return a result on the falsy
path (`KeyError`), shown here at the concrete input with
`required_keywords = []`. -/
theorem claim_C8_keyword_invariant :
    (∀ (text : String) (skills : List ExtractedSkill)
      (rk : Option (List String)) (sections : Option (List (String × String))),
      (calculate_score_spec text skills rk sections).keyword_matches ≤
        (calculate_score_spec text skills rk sections).keyword_total ∧
      ((calculate_score_spec text skills rk sections).keyword_total = 0 ↔
        keywordsTruthy rk = false)) ∧
    calculate_score "y" [] (some []) none =
      Except.error "KeyError: \x27keywords\x27" := by
  constructor
  · intro text skills rk sections
    match rk with
    | none =>
      have h1 : (calculate_score_spec text skills none sections).keyword_matches
          = 0 := rfl
      have h2 : (calculate_score_spec text skills none sections).keyword_total
          = 0 := rfl
      rw [h1, h2]
      exact ⟨le_refl 0, by simp [keywordsTruthy]⟩
    | some [] =>
      have h1 : (calculate_score_spec text skills (some []) sections).keyword_matches
          = 0 := rfl
      have h2 : (calculate_score_spec text skills (some []) sections).keyword_total
          = 0 := rfl
      rw [h1, h2]
      exact ⟨le_refl 0, by simp [keywordsTruthy]⟩
    | some (k :: ks) =>
      constructor
      · show (score_keywords text (k :: ks)).2.1 ≤ (k :: ks).length
        unfold score_keywords
        dsimp only
        exact List.length_filter_le _ _
      · show (if (k :: ks).isEmpty then 0 else (k :: ks).length) = 0 ↔
          keywordsTruthy (some (k :: ks)) = false
        simp [keywordsTruthy]
  · rfl

end ResumeAnalyzer
